import Mathlib

/-!
# Verification of the ParaDetect malaria-classifier pipeline

Shallow embedding of the label mapping, demo-prediction generator,
preprocessing, batch folder inference, class-weight computation and the
upload endpoint of the repository, with theorems about each.
-/

namespace ParaDetect

/-- `config.py`: `CLASS_NAMES = ["Uninfected", "Parasitized"]`. -/
def CLASS_NAMES : List String := ["Uninfected", "Parasitized"]

/-- `config.py`: `NUM_CLASSES = 2`. -/
def NUM_CLASSES : Nat := 2

/-- The recognized image extensions `(".png", ".jpg", ".jpeg")` used by
`predict.predict_folder` and `data_loader.get_class_weights`. -/
def imageExts : List String := [".png", ".jpg", ".jpeg"]

/-- Python `str.lower` on one ASCII character. -/
def lowerChar (c : Char) : Char :=
  if 65 ≤ c.toNat ∧ c.toNat ≤ 90 then Char.ofNat (c.toNat + 32) else c

/-- Python `str.lower` (ASCII case folding, as it acts on filenames). -/
def lowerStr (s : String) : List Char := s.data.map lowerChar

/-- Python `f.lower().endswith((".png", ".jpg", ".jpeg"))`. -/
def hasImageExt (f : String) : Bool :=
  imageExts.any fun e => e.data.isSuffixOf (lowerStr f)

example : hasImageExt "CELL.PNG" = true := by decide
example : hasImageExt "cell.txt" = false := by decide

/-- Python string `<`: lexicographic comparison by code point. -/
def charListLt : List Char → List Char → Bool
  | [], [] => false
  | [], _ :: _ => true
  | _ :: _, [] => false
  | a :: as, b :: bs =>
    if a.toNat < b.toNat then true
    else if b.toNat < a.toNat then false
    else charListLt as bs

/-- Python string `<=` (the order `sorted` arranges by). -/
def pyStrLe (a b : String) : Bool := !(charListLt b.data a.data)

/-- Python `sorted` on a list of strings: lexicographic by code point. -/
def pySorted (l : List String) : List String :=
  l.insertionSort fun a b => pyStrLe a b = true

example : pySorted ["b.png", "a.png"] = ["a.png", "b.png"] := by decide

/-- Keras `image_dataset_from_directory` label inference, as used by the
repository: when `class_names` is passed, indices follow that list; when it
is omitted, indices follow the subdirectory names in sorted order
(the library's documented default). -/
def kerasClassNames (subdirListing : List String) : Option (List String) → List String
  | some explicit => explicit
  | none => pySorted subdirListing

/-- `src/data_loader.get_dataset_from_folders` passes
`class_names=CLASS_NAMES` to `image_dataset_from_directory`
(`src/src/data_loader.py` lines 34–46). -/
def dataLoaderClassNames (subdirListing : List String) : List String :=
  kerasClassNames subdirListing (some CLASS_NAMES)

/-- `train_model.py` (lines 51–61) calls `image_dataset_from_directory`
without `class_names`, so the class order is the sorted subdirectory
listing. -/
def trainModelClassNames (subdirListing : List String) : List String :=
  kerasClassNames subdirListing none

/-- The result of `app.generate_demo_prediction` / the demo branch of
`demo_app.api_predict`: a label, its confidence, and the two reported
class probabilities. -/
structure DemoPrediction where
  label : String
  confidence : ℚ
  uninfectedProb : ℚ
  parasitizedProb : ℚ
deriving DecidableEq

/-- `app.generate_demo_prediction` with the two draws of the global random
source injected: `u1` models the `random.random()` call (uniform on
`[0,1)`) and `u2` the unit sample underlying `random.uniform(a, b)`,
which returns `a + (b - a) * u2` with `u2` uniform on `[0,1]`. -/
def generate_demo_prediction (u1 u2 : ℚ) : DemoPrediction :=
  if u1 < 3/10 then
    let p := 65/100 + (95/100 - 65/100) * u2
    { label := "Parasitized", confidence := p,
      uninfectedProb := 1 - p, parasitizedProb := p }
  else
    let p := 70/100 + (98/100 - 70/100) * u2
    { label := "Uninfected", confidence := p,
      uninfectedProb := p, parasitizedProb := 1 - p }

/-- The per-class file counts of `data_loader.get_class_weights`
(`src/src/data_loader.py` lines 72–78): each entry of `classDirs` models
one `os.path.join(data_dir, c)` for `c in CLASS_NAMES` — `none` when
`os.path.isdir` is false, otherwise `some` of the `os.listdir` result. -/
def classCounts (classDirs : List (Option (List String))) : List Nat :=
  classDirs.map fun d =>
    match d with
    | some files => (files.filter hasImageExt).length
    | none => 0

/-- `data_loader.get_class_weights` (`src/src/data_loader.py` lines 70–83):
`None` when the total count is zero, otherwise the dict
`{i: total / (len(counts) * c) for i, c in enumerate(counts) if c > 0}`,
modelled as an association list in enumeration order. -/
def get_class_weights (classDirs : List (Option (List String))) :
    Option (List (Nat × ℚ)) :=
  if (classCounts classDirs).sum = 0 then none
  else some ((((classCounts classDirs).enum).filter fun p => 0 < p.2).map
    fun p => (p.1, ((classCounts classDirs).sum : ℚ) /
      (((classCounts classDirs).length : ℚ) * (p.2 : ℚ))))

example : (get_class_weights [some ["a.png"], none]).isSome = true := rfl

/-- The error message of the `get_dataset_from_folders` directory guard. -/
def dataDirNotFoundMsg (data_dir : String) : String :=
  "Data directory not found: " ++ data_dir ++
  "\nPlease download the malaria cell images dataset and extract to:\n" ++
  "  paradetect_ai/data/cell_images/Parasitized/\n" ++
  "  paradetect_ai/data/cell_images/Uninfected/"

/-- The guard phase of `data_loader.get_dataset_from_folders`
(`src/src/data_loader.py` lines 26–32), executed before the train and
validation datasets are built: only `os.path.isdir(data_dir)` is checked.
`isDir` models `os.path.isdir`. -/
def get_dataset_from_folders_guard (isDir : String → Bool) (data_dir : String) :
    Except String Unit :=
  if !(isDir data_dir) then .error (dataDirNotFoundMsg data_dir)
  else .ok ()

/-- A decoded OpenCV image: `height × width` pixels, 3 channels (BGR order
as returned by `cv2.imread`), 8-bit values. `pixel r c ch` is the value at
row `r`, column `c`, channel `ch`. -/
structure RawImage where
  height : Nat
  width : Nat
  pixel : Nat → Nat → Fin 3 → Nat

/-- The 8-bit value range of a decoded image. -/
def RawImage.uint8 (img : RawImage) : Prop :=
  ∀ r c ch, img.pixel r c ch < 256

/-- `cv2.cvtColor(img, cv2.COLOR_BGR2RGB)`: reverse the channel order,
keeping the dimensions. -/
def cvtColorBGR2RGB (img : RawImage) : RawImage :=
  { img with pixel := fun r c ch => img.pixel r c ⟨2 - ch.val, by omega⟩ }

/-- The block of source indices that `cv2.INTER_AREA` averages for
destination index `i` when rescaling an axis of length `src` to length
`dst`: the source positions `s` with `s * dst / src = i`. -/
def areaBlock (src dst i : Nat) : List Nat :=
  (List.range src).filter fun s => s * dst / src = i

/-- Integer mean of a value list, with a fallback sample for an empty
block (upscaling). -/
def meanOr (fallback : Nat) (xs : List Nat) : Nat :=
  if xs.isEmpty then fallback else xs.sum / xs.length

/-- `cv2.resize(img, (w, h), interpolation=cv2.INTER_AREA)`: an `h × w`
image whose pixel at `(r, c)` averages the corresponding source area
(falling back to the aligned source sample when the area holds no source
pixel). -/
def resizeArea (img : RawImage) (w h : Nat) : RawImage :=
  { height := h, width := w,
    pixel := fun r c ch =>
      let rows := areaBlock img.height h r
      let cols := areaBlock img.width w c
      let vals := rows.flatMap fun sr => cols.map fun sc => img.pixel sr sc ch
      meanOr (img.pixel (r * img.height / h) (c * img.width / w) ch) vals }

/-- The float array produced by preprocessing: rational pixel values model
the `float32` entries. -/
structure NormImage where
  height : Nat
  width : Nat
  pixel : Nat → Nat → Fin 3 → ℚ

/-- `src/preprocess.load_and_preprocess` (`src/src/preprocess.py` lines
7–20). `imread` models `cv2.imread`, returning `none` when the file is
unreadable or not a valid image (OpenCV then returns `None` and the
function raises `ValueError`). `target` is the `(width, height)` tuple
passed to `cv2.resize`. -/
def load_and_preprocess (imread : String → Option RawImage)
    (image_path : String) (target : Nat × Nat) : Except String NormImage :=
  match imread image_path with
  | none => .error ("Could not read image: " ++ image_path)
  | some img =>
    let rgb := cvtColorBGR2RGB img
    let rsz := resizeArea rgb target.1 target.2
    .ok { height := rsz.height, width := rsz.width,
          pixel := fun r c ch => (rsz.pixel r c ch : ℚ) / 255 }

/-- One row of the batch CLI output of `predict.predict_folder`: a
successful `(path, label, confidence)` record, or an error record carrying
the path and the failure reason. -/
inductive BatchRecord
  | ok (path label : String) (conf : ℚ)
  | err (path reason : String)
deriving DecidableEq

/-- Whether a batch record is a successful prediction. -/
def BatchRecord.isOk : BatchRecord → Bool
  | .ok _ _ _ => true
  | .err _ _ => false

/-- The path carried by a batch record. -/
def BatchRecord.path : BatchRecord → String
  | .ok p _ _ => p
  | .err p _ => p

/-- Python `os.path.join` for the simple two-component case in
`predict_folder`. -/
def osPathJoin (a b : String) : String := a ++ "/" ++ b

/-- `predict.predict_folder` (`src/predict.py` lines 29–38): `pred` models
`predict_single_image` on one path, with a raised exception as
`.error msg`; `listing` models `os.listdir(folder_path)`. -/
def predict_folder (pred : String → Except String (String × ℚ))
    (folder_path : String) (listing : List String) : List BatchRecord :=
  ((pySorted listing).filter hasImageExt).map fun f =>
    let path := osPathJoin folder_path f
    match pred path with
    | .ok (label, conf) => .ok path label conf
    | .error e => .err path e

/-- The suffix of a character list starting at its last `.`, when any. -/
def lastDotSuffix : List Char → Option (List Char)
  | [] => none
  | c :: rest =>
    match lastDotSuffix rest with
    | some e => some e
    | none => if c = '.' then some (c :: rest) else none

/-- The extension part of Python `os.path.splitext` for a separator-free
filename: leading dots belong to the root, the extension starts at the
last remaining dot. -/
def splitextExt (s : String) : String :=
  match lastDotSuffix (s.data.dropWhile fun c => c = '.') with
  | some e => String.mk e
  | none => ""

example : splitextExt "cell.Png" = ".Png" := by decide
example : splitextExt ".bashrc" = "" := by decide
example : splitextExt "a.tar.gz" = ".gz" := by decide

/-- `app.api_predict` / `demo_app.api_predict`:
`allowed_extensions = {'.png', '.jpg', '.jpeg', '.PNG', '.JPG', '.JPEG'}`. -/
def allowed_extensions : List String :=
  [".png", ".jpg", ".jpeg", ".PNG", ".JPG", ".JPEG"]

/-- The JSON body and HTTP status produced by one call of the prediction
endpoint. -/
structure Response where
  status : Nat
  error : Option String
  label : Option String
  confidence : Option ℚ
  probUninfected : Option ℚ
  probParasitized : Option ℚ
  demo_mode : Bool

/-- An error JSON response `{"error": msg}` with the given status. -/
def errorResponse (status : Nat) (msg : String) : Response :=
  { status := status, error := some msg, label := none, confidence := none,
    probUninfected := none, probParasitized := none, demo_mode := false }

/-- Outcome of the guarded model section of `app.api_predict` (preprocess
plus forward pass): the probability row `model.predict(...)[0]`, or a
raised exception. -/
inductive ModelStep
  | ok (probs : List ℚ)
  | raise (msg : String)

/-- `np.argmax` on a row: index of the first maximal entry. -/
def argmaxAux : List ℚ → Nat → Nat → ℚ → Nat
  | [], _, best, _ => best
  | x :: xs, i, best, bv =>
    if bv < x then argmaxAux xs (i + 1) i x else argmaxAux xs (i + 1) best bv

/-- `np.argmax` over a probability row (`0` on an empty row). -/
def argmaxIdx : List ℚ → Nat
  | [] => 0
  | x :: xs => argmaxAux xs 1 0 x

/-- `app.api_predict` (`src/app.py` lines 106–206). Inputs model the
request and the effects of the calls the handler makes:
`hasImage` — `"image" in request.files`; `filename` — `file.filename`;
`modelLoaded` — `model is not None and TF_AVAILABLE`; `step` — the guarded
preprocessing/forward-pass section; `u1 u2` — the random draws consumed by
`generate_demo_prediction` when it runs; `postRaise` — an exception raised
after the inner prediction section (caught by the outer
`except Exception`); `temp_path` — the temp upload path; `fs` — the files
present in the upload directory. Returns the response and the final file
set after the `finally` cleanup. -/
def api_predict (hasImage : Bool) (filename : String) (modelLoaded : Bool)
    (step : ModelStep) (u1 u2 : ℚ) (postRaise : Option String)
    (temp_path : String) (fs : List String) : Response × List String :=
  if !hasImage then (errorResponse 400 "No image uploaded", fs)
  else if filename = "" then (errorResponse 400 "Empty filename", fs)
  else if !(allowed_extensions.contains (splitextExt filename)) then
    (errorResponse 400
      "Invalid file format. Please upload PNG, JPG, or JPEG files.", fs)
  else
    let fs1 := temp_path :: fs
    let result : Response :=
      match postRaise with
      | some msg => errorResponse 500 ("Processing failed: " ++ msg)
      | none =>
        if modelLoaded then
          match step with
          | .ok probs =>
            let idx := argmaxIdx probs
            { status := 200, error := none,
              label := CLASS_NAMES.get? idx,
              confidence := probs.get? idx,
              probUninfected := probs.get? 0,
              probParasitized := probs.get? 1,
              demo_mode := false }
          | .raise _ =>
            let d := generate_demo_prediction u1 u2
            { status := 200, error := none, label := some d.label,
              confidence := some d.confidence,
              probUninfected := some d.uninfectedProb,
              probParasitized := some d.parasitizedProb,
              demo_mode := true }
        else
          let d := generate_demo_prediction u1 u2
          { status := 200, error := none, label := some d.label,
            confidence := some d.confidence,
            probUninfected := some d.uninfectedProb,
            probParasitized := some d.parasitizedProb,
            demo_mode := true }
    (result, fs1.filter fun p => !(p == temp_path))

/-- `demo_app.api_predict` (`src/demo_app.py` lines 33–101): same
validation, then always the demo generator inside a
`try/except/finally`; `bodyRaise` models an exception raised in the body
after the file is saved. -/
def demo_app_api_predict (hasImage : Bool) (filename : String)
    (bodyRaise : Option String) (u1 u2 : ℚ) (temp_path : String)
    (fs : List String) : Response × List String :=
  if !hasImage then (errorResponse 400 "No image uploaded", fs)
  else if filename = "" then (errorResponse 400 "Empty filename", fs)
  else if !(allowed_extensions.contains (splitextExt filename)) then
    (errorResponse 400
      "Invalid file format. Please upload PNG, JPG, or JPEG files.", fs)
  else
    let fs1 := temp_path :: fs
    let result : Response :=
      match bodyRaise with
      | some msg => errorResponse 500 ("Processing failed: " ++ msg)
      | none =>
        let d := generate_demo_prediction u1 u2
        { status := 200, error := none, label := some d.label,
          confidence := some d.confidence,
          probUninfected := some d.uninfectedProb,
          probParasitized := some d.parasitizedProb,
          demo_mode := true }
    (result, fs1.filter fun p => !(p == temp_path))

/-! ## Claims -/

/-- C1 (counterexample): `train_model.py` omits `class_names`, so with the
dataset's two class directories the inferred order is the sorted listing
`["Parasitized", "Uninfected"]` — class index 0 is "Parasitized", not
"Uninfected". -/
theorem C1_train_model_counterexample :
    (trainModelClassNames ["Parasitized", "Uninfected"]).get? 0 ≠
      some "Uninfected" ∧
    (trainModelClassNames ["Parasitized", "Uninfected"]).get? 0 =
      some "Parasitized" := by decide

/-- C1 (amended): the `data_loader`-based pipeline pins the order with
`class_names=CLASS_NAMES`, so index 0 is "Uninfected" and index 1 is
"Parasitized" there and at inference lookup into `CLASS_NAMES`; but
`train_model.py`, which lets the library sort the directory names, assigns
index 0 to "Parasitized". -/
theorem C1_class_index_mapping (subdirs : List String) :
    dataLoaderClassNames subdirs = CLASS_NAMES ∧
    CLASS_NAMES.get? 0 = some "Uninfected" ∧
    CLASS_NAMES.get? 1 = some "Parasitized" ∧
    (trainModelClassNames ["Parasitized", "Uninfected"]).get? 0 =
      some "Parasitized" :=
  ⟨rfl, rfl, rfl, by decide⟩

/-- C2: the demo generator labels "Parasitized" exactly when the uniform
draw is below 0.3, with confidence uniform on `[0.65, 0.95]`, and
"Uninfected" otherwise with confidence uniform on `[0.70, 0.98]`; in both
branches the other class's probability is `1 - confidence`, the two
probabilities sum to 1, and the confidence is the probability of the
returned label. -/
theorem C2_demo_generator (u1 u2 : ℚ) (hu2a : 0 ≤ u2) (hu2b : u2 ≤ 1)
    (d : DemoPrediction) (hd : d = generate_demo_prediction u1 u2) :
    d.uninfectedProb + d.parasitizedProb = 1 ∧
    (u1 < 3/10 →
      d.label = "Parasitized" ∧
      65/100 ≤ d.confidence ∧ d.confidence ≤ 95/100 ∧
      d.confidence = d.parasitizedProb ∧
      d.uninfectedProb = 1 - d.confidence) ∧
    (¬ u1 < 3/10 →
      d.label = "Uninfected" ∧
      70/100 ≤ d.confidence ∧ d.confidence ≤ 98/100 ∧
      d.confidence = d.uninfectedProb ∧
      d.parasitizedProb = 1 - d.confidence) := by
  subst hd
  unfold generate_demo_prediction
  split
  case isTrue h =>
    refine ⟨by ring, fun _ => ⟨rfl, ?_, ?_, rfl, rfl⟩, fun h' => absurd h h'⟩
    · nlinarith
    · nlinarith
  case isFalse h =>
    refine ⟨by ring, fun h' => absurd h' h, fun _ => ⟨rfl, ?_, ?_, rfl, rfl⟩⟩
    · nlinarith
    · nlinarith

/-- C2 witness at `u1 = 0`, `u2 = 0`. -/
theorem C2_demo_generator_witness :
    (generate_demo_prediction 0 0).uninfectedProb +
      (generate_demo_prediction 0 0).parasitizedProb = 1 ∧
    (generate_demo_prediction 0 0).label = "Parasitized" :=
  ⟨(C2_demo_generator 0 0 le_rfl zero_le_one _ rfl).1,
   ((C2_demo_generator 0 0 le_rfl zero_le_one _ rfl).2.1 (by norm_num)).1⟩

/-- C7 (counterexample): with a filesystem where the root directory exists
but neither class subdirectory does, the guard of
`get_dataset_from_folders` succeeds — no "directory not found" error is
raised before the datasets are built. -/
theorem C7_missing_subdir_counterexample :
    ((fun s => s.data == "root".data) "root/Parasitized" = false) ∧
    ((fun s => s.data == "root".data) "root/Uninfected" = false) ∧
    get_dataset_from_folders_guard (fun s => s.data == "root".data) "root" =
      .ok () := by
  refine ⟨by decide, by decide, rfl⟩

/-- C7 (amended): `get_dataset_from_folders` raises the "directory not
found" error naming the expected structure exactly when the root directory
is absent; the class subdirectories are not checked before the datasets
are built. -/
theorem C7_directory_guard (isDir : String → Bool) (data_dir : String) :
    (isDir data_dir = false →
      get_dataset_from_folders_guard isDir data_dir =
        .error (dataDirNotFoundMsg data_dir)) ∧
    (isDir data_dir = true →
      get_dataset_from_folders_guard isDir data_dir = .ok ()) := by
  constructor <;> intro h <;> simp [get_dataset_from_folders_guard, h]

/-- C7 witness: both branches of the guard at concrete inputs. -/
theorem C7_directory_guard_witness :
    get_dataset_from_folders_guard (fun _ => false) "d" =
      .error (dataDirNotFoundMsg "d") ∧
    get_dataset_from_folders_guard (fun _ => true) "d" = .ok () :=
  ⟨(C7_directory_guard (fun _ => false) "d").1 rfl,
   (C7_directory_guard (fun _ => true) "d").2 rfl⟩

/-- The weight entry produced for a class with index `i` and count `c`. -/
lemma mem_class_weights {classDirs : List (Option (List String))}
    {ws : List (Nat × ℚ)} (hws : get_class_weights classDirs = some ws)
    {i c : Nat} (hic : (classCounts classDirs)[i]? = some c) (hc : 0 < c) :
    (i, ((classCounts classDirs).sum : ℚ) /
      (((classCounts classDirs).length : ℚ) * (c : ℚ))) ∈ ws := by
  unfold get_class_weights at hws
  split at hws
  · exact absurd hws (by simp)
  · obtain rfl : _ = ws := Option.some_injective _ hws
    have hmem : (i, c) ∈ (classCounts classDirs).enum :=
      List.mk_mem_enum_iff_getElem?.2 hic
    exact List.mem_map_of_mem _ (List.mem_filter.2 ⟨hmem, by simpa using hc⟩)

/-- C5: when every class count is positive (and there is at least one
class), `get_class_weights` returns weights with
`weight(i) = total / (num_classes * count(i))` for every class index. -/
theorem C5_class_weights (classDirs : List (Option (List String)))
    (hne : classDirs ≠ [])
    (hpos : ∀ c ∈ classCounts classDirs, 0 < c) :
    ∃ ws, get_class_weights classDirs = some ws ∧
      ∀ (i c : Nat), (classCounts classDirs)[i]? = some c →
        (i, ((classCounts classDirs).sum : ℚ) /
          (((classCounts classDirs).length : ℚ) * (c : ℚ))) ∈ ws := by
  have hne' : classCounts classDirs ≠ [] := by
    simpa [classCounts] using hne
  have htot : 0 < (classCounts classDirs).sum :=
    List.sum_pos _ hpos hne'
  have hsome : (get_class_weights classDirs).isSome = true := by
    unfold get_class_weights
    split
    · omega
    · rfl
  obtain ⟨ws, hws⟩ := Option.isSome_iff_exists.1 hsome
  refine ⟨ws, hws, fun i c hic => ?_⟩
  exact mem_class_weights hws hic (hpos c (List.getElem?_mem hic))

/-- C5 witness at counts `(100, 25)`: both per-class weight entries. -/
theorem C5_class_weights_witness :
    ∃ ws,
      get_class_weights
        [some (List.replicate 100 "a.png"), some (List.replicate 25 "b.jpg")] =
          some ws ∧
      (0, ((classCounts [some (List.replicate 100 "a.png"),
              some (List.replicate 25 "b.jpg")]).sum : ℚ) /
        (((classCounts [some (List.replicate 100 "a.png"),
              some (List.replicate 25 "b.jpg")]).length : ℚ) *
          ((100 : Nat) : ℚ))) ∈ ws ∧
      (1, ((classCounts [some (List.replicate 100 "a.png"),
              some (List.replicate 25 "b.jpg")]).sum : ℚ) /
        (((classCounts [some (List.replicate 100 "a.png"),
              some (List.replicate 25 "b.jpg")]).length : ℚ) *
          ((25 : Nat) : ℚ))) ∈ ws := by
  obtain ⟨ws, hws, hmem⟩ :=
    C5_class_weights
      [some (List.replicate 100 "a.png"), some (List.replicate 25 "b.jpg")]
      (by decide) (by decide)
  exact ⟨ws, hws, hmem 0 100 (by decide), hmem 1 25 (by decide)⟩

/-- C6 (counterexample): with class counts `(1, 0)` — one class empty but
a positive total — `get_class_weights` does not return the no-weighting
sentinel `None`. -/
theorem C6_zero_class_counterexample :
    (0 : Nat) ∈ classCounts [some ["a.png"], none] ∧
    (get_class_weights [some ["a.png"], none]).isSome = true :=
  ⟨by decide, rfl⟩

/-- C6 (amended): the no-weighting sentinel is returned exactly when the
total count is zero; when the total is positive, classes with zero count
are simply omitted from the returned weights while every positive-count
class receives `total / (num_classes * count)`. -/
theorem C6_no_weighting_sentinel (classDirs : List (Option (List String))) :
    (get_class_weights classDirs = none ↔
      (classCounts classDirs).sum = 0) ∧
    ∀ ws, get_class_weights classDirs = some ws →
      ∀ (i c : Nat), (classCounts classDirs)[i]? = some c →
        ((c = 0 → ∀ w, (i, w) ∉ ws) ∧
         (0 < c →
           (i, ((classCounts classDirs).sum : ℚ) /
             (((classCounts classDirs).length : ℚ) * (c : ℚ))) ∈ ws)) := by
  constructor
  · unfold get_class_weights
    split
    · simp_all
    · simp_all
  · intro ws hws i c hic
    refine ⟨?_, fun hc => mem_class_weights hws hic hc⟩
    intro hc0 w hmem
    unfold get_class_weights at hws
    split at hws
    · exact absurd hws (by simp)
    · obtain rfl : _ = ws := Option.some_injective _ hws
      obtain ⟨p, hp, hpw⟩ := List.mem_map.1 hmem
      obtain ⟨hpe, hppos⟩ := List.mem_filter.1 hp
      have hp1 : p.1 = i := congrArg Prod.fst hpw
      have hget : (classCounts classDirs)[i]? = some p.2 := by
        rw [← hp1]
        exact List.mk_mem_enum_iff_getElem?.1 (by simpa using hpe)
      rw [hic] at hget
      obtain rfl : p.2 = c := by simpa using hget.symm
      simp [hc0] at hppos

/-- C6 witness: the sentinel iff and both membership directions at class
counts `(1, 0)`. -/
theorem C6_no_weighting_sentinel_witness :
    (get_class_weights [some ["a.png"], none] = none ↔
      (classCounts [some ["a.png"], none]).sum = 0) ∧
    ((1 : Nat), (37 : ℚ)) ∉
      [((0 : Nat), ((classCounts [some ["a.png"], none]).sum : ℚ) /
        (((classCounts [some ["a.png"], none]).length : ℚ) *
          ((1 : Nat) : ℚ)))] ∧
    ((0 : Nat), ((classCounts [some ["a.png"], none]).sum : ℚ) /
      (((classCounts [some ["a.png"], none]).length : ℚ) *
        ((1 : Nat) : ℚ))) ∈
      [((0 : Nat), ((classCounts [some ["a.png"], none]).sum : ℚ) /
        (((classCounts [some ["a.png"], none]).length : ℚ) *
          ((1 : Nat) : ℚ)))] :=
  ⟨(C6_no_weighting_sentinel [some ["a.png"], none]).1,
   (((C6_no_weighting_sentinel [some ["a.png"], none]).2 _ rfl 1 0
      (by decide)).1 rfl 37),
   (((C6_no_weighting_sentinel [some ["a.png"], none]).2 _ rfl 0 1
      (by decide)).2 (by decide))⟩

/-- A list mean is bounded by any bound on the entries and the fallback. -/
lemma meanOr_le {n fb : Nat} (xs : List Nat) (hfb : fb ≤ n)
    (hxs : ∀ x ∈ xs, x ≤ n) : meanOr fb xs ≤ n := by
  cases xs with
  | nil => simpa [meanOr] using hfb
  | cons y ys =>
    simp only [meanOr, List.isEmpty_cons, if_false, Bool.false_eq_true]
    have hsum : (y :: ys).sum ≤ (y :: ys).length * n := by
      simpa [smul_eq_mul, Nat.mul_comm] using
        List.sum_le_card_nsmul (y :: ys) n hxs
    calc (y :: ys).sum / (y :: ys).length
        ≤ ((y :: ys).length * n) / (y :: ys).length :=
          Nat.div_le_div_right hsum
      _ = n := Nat.mul_div_cancel_left n (by simp)

/-- `resizeArea` keeps the 8-bit value bound of its input. -/
lemma resizeArea_pixel_le {img : RawImage} (h8 : img.uint8)
    (w hh r c : Nat) (ch : Fin 3) :
    (resizeArea img w hh).pixel r c ch ≤ 255 := by
  show meanOr _ _ ≤ 255
  refine meanOr_le _ (Nat.lt_succ_iff.1 (h8 _ _ _)) fun x hx => ?_
  obtain ⟨sr, -, hx⟩ := List.mem_flatMap.1 hx
  obtain ⟨sc, -, rfl⟩ := List.mem_map.1 hx
  exact Nat.lt_succ_iff.1 (h8 _ _ _)

/-- C3: when the file decodes (to an 8-bit image), `load_and_preprocess`
with target size `(w, h)` returns an array of shape `(h, w, 3)` whose
values all lie in `[0, 1]`; when the file is unreadable or invalid it
fails with the decode error naming the path. -/
theorem C3_load_and_preprocess (imread : String → Option RawImage)
    (path : String) (w h : Nat) :
    (imread path = none →
      load_and_preprocess imread path (w, h) =
        .error ("Could not read image: " ++ path)) ∧
    (∀ raw, imread path = some raw → raw.uint8 →
      ∃ out, load_and_preprocess imread path (w, h) = .ok out ∧
        out.height = h ∧ out.width = w ∧
        ∀ r c ch, 0 ≤ out.pixel r c ch ∧ out.pixel r c ch ≤ 1) := by
  constructor
  · intro hnone
    unfold load_and_preprocess
    rw [hnone]
  · intro raw hsome h8
    have h8' : (cvtColorBGR2RGB raw).uint8 := fun r c ch => h8 r c _
    refine ⟨_, by unfold load_and_preprocess; rw [hsome], rfl, rfl,
      fun r c ch => ⟨?_, ?_⟩⟩
    · exact div_nonneg (Nat.cast_nonneg _) (by norm_num)
    · rw [div_le_one (by norm_num)]
      exact_mod_cast
        le_trans (Nat.cast_le.2 (resizeArea_pixel_le h8' w h r c ch))
          (le_refl (255 : ℚ))

/-- C3 witness: the error branch at an unreadable path, and the success
branch on a concrete 1×1 decoded image with target size `(2, 2)`. -/
theorem C3_load_and_preprocess_witness :
    (load_and_preprocess (fun _ => none) "bad.png" (2, 2) =
      .error ("Could not read image: " ++ "bad.png")) ∧
    ∃ out,
      load_and_preprocess (fun _ => some ⟨1, 1, fun _ _ _ => 7⟩)
          "cell.png" (2, 2) = .ok out ∧
      out.height = 2 ∧ out.width = 2 ∧
      ∀ r c ch, 0 ≤ out.pixel r c ch ∧ out.pixel r c ch ≤ 1 :=
  ⟨(C3_load_and_preprocess (fun _ => none) "bad.png" 2 2).1 rfl,
   (C3_load_and_preprocess (fun _ => some ⟨1, 1, fun _ _ _ => 7⟩)
      "cell.png" 2 2).2 ⟨1, 1, fun _ _ _ => 7⟩ rfl
      (fun _ _ _ => by show (7 : Nat) < 256; omega)⟩

/-- Lexicographic comparison is asymmetric. -/
lemma charListLt_asymm : ∀ a b : List Char,
    charListLt a b = true → charListLt b a = false := by
  intro a
  induction a with
  | nil =>
    intro b hb
    cases b with
    | nil => simp [charListLt] at hb
    | cons y ys => simp [charListLt]
  | cons x xs ih =>
    intro b hb
    cases b with
    | nil => simp [charListLt] at hb
    | cons y ys =>
      simp only [charListLt] at hb ⊢
      by_cases h1 : x.toNat < y.toNat
      · simp [if_neg (by omega : ¬ y.toNat < x.toNat), if_pos h1]
      · by_cases h2 : y.toNat < x.toNat
        · simp [if_neg h1, if_pos h2] at hb
        · simp only [if_neg h1, if_neg h2] at hb
          simp [if_neg h1, if_neg h2, ih ys hb]

/-- Two lexicographically incomparable character lists are equal. -/
lemma charListLt_connex : ∀ a b : List Char,
    charListLt a b = false → charListLt b a = false → a = b := by
  intro a
  induction a with
  | nil =>
    intro b hab _
    cases b with
    | nil => rfl
    | cons y ys => simp [charListLt] at hab
  | cons x xs ih =>
    intro b hab hba
    cases b with
    | nil => simp [charListLt] at hba
    | cons y ys =>
      simp only [charListLt] at hab hba
      by_cases h1 : x.toNat < y.toNat
      · simp [if_pos h1] at hab
      · by_cases h2 : y.toNat < x.toNat
        · simp [if_pos h2] at hba
        · simp only [if_neg h1, if_neg h2] at hab hba
          have hxy : x = y := by
            have : x.toNat = y.toNat := by omega
            calc x = Char.ofNat x.toNat := (Char.ofNat_toNat x).symm
              _ = Char.ofNat y.toNat := by rw [this]
              _ = y := Char.ofNat_toNat y
          rw [hxy, ih ys hab hba]

/-- Lexicographic comparison is transitive. -/
lemma charListLt_trans : ∀ a b c : List Char,
    charListLt a b = true → charListLt b c = true →
      charListLt a c = true := by
  intro a
  induction a with
  | nil =>
    intro b c hab hbc
    cases c with
    | nil =>
      cases b with
      | nil => simp [charListLt] at hab
      | cons y ys => simp [charListLt] at hbc
    | cons z zs => simp [charListLt]
  | cons x xs ih =>
    intro b c hab hbc
    cases b with
    | nil => simp [charListLt] at hab
    | cons y ys =>
      cases c with
      | nil => simp [charListLt] at hbc
      | cons z zs =>
        simp only [charListLt] at hab hbc ⊢
        by_cases h1 : x.toNat < y.toNat <;> by_cases h2 : y.toNat < z.toNat
        · simp [if_pos (by omega : x.toNat < z.toNat)]
        · simp only [if_neg h2] at hbc
          by_cases h3 : z.toNat < y.toNat
          · simp [if_pos h3] at hbc
          · simp [if_pos (by omega : x.toNat < z.toNat)]
        · simp only [if_neg h1] at hab
          by_cases h3 : y.toNat < x.toNat
          · simp [if_pos h3] at hab
          · simp [if_pos (by omega : x.toNat < z.toNat)]
        · simp only [if_neg h1] at hab
          simp only [if_neg h2] at hbc
          by_cases h3 : y.toNat < x.toNat
          · simp [if_pos h3] at hab
          · by_cases h4 : z.toNat < y.toNat
            · simp [if_pos h4] at hbc
            · simp only [if_neg h3] at hab
              simp only [if_neg h4] at hbc
              simp [if_neg (by omega : ¬ x.toNat < z.toNat),
                if_neg (by omega : ¬ z.toNat < x.toNat), ih ys zs hab hbc]

/-- The Python string order is transitive. -/
instance pyStrLeTrans : IsTrans String fun a b => pyStrLe a b = true := by
  constructor
  intro a b c hab hbc
  simp only [pyStrLe, Bool.not_eq_true'] at hab hbc ⊢
  cases hca : charListLt c.data a.data with
  | false => rfl
  | true =>
    cases hbc' : charListLt b.data c.data with
    | true => rw [charListLt_trans _ _ _ hbc' hca] at hab; exact hab
    | false =>
      rw [← charListLt_connex _ _ hbc' hbc] at hca
      rw [hca] at hab
      exact hab

/-- The Python string order is total. -/
instance pyStrLeTotal : IsTotal String fun a b => pyStrLe a b = true := by
  constructor
  intro a b
  simp only [pyStrLe, Bool.not_eq_true']
  cases hba : charListLt b.data a.data with
  | false => exact Or.inl rfl
  | true => exact Or.inr (charListLt_asymm _ _ hba)

/-- `predict_folder` counts, pushed through the defining map. -/
lemma predict_folder_countP (pred : String → Except String (String × ℚ))
    (folder_path : String) (listing : List String) (p : BatchRecord → Bool) :
    (predict_folder pred folder_path listing).countP p =
      ((pySorted listing).filter hasImageExt).countP fun f =>
        p (match pred (osPathJoin folder_path f) with
           | .ok (label, conf) =>
             .ok (osPathJoin folder_path f) label conf
           | .error e => .err (osPathJoin folder_path f) e) := by
  unfold predict_folder
  rw [List.countP_map]
  rfl

/-- C4: batch folder inference visits exactly the files with recognized
image extensions, in sorted order; each visited file yields one record —
a success record when single-image prediction succeeds, an error record
carrying that file's path and failure reason when it raises — failures do
not remove later records; in particular six recognized files of which
exactly one fails yield five success records and one error record. -/
theorem C4_predict_folder (pred : String → Except String (String × ℚ))
    (folder_path : String) (listing : List String) :
    ((pySorted listing).filter hasImageExt).Perm
      (listing.filter hasImageExt) ∧
    List.Pairwise (fun a b => pyStrLe a b = true)
      ((pySorted listing).filter hasImageExt) ∧
    (predict_folder pred folder_path listing).length =
      ((pySorted listing).filter hasImageExt).length ∧
    (∀ (i : Nat) (f : String),
      ((pySorted listing).filter hasImageExt)[i]? = some f →
        (∀ label conf,
          pred (osPathJoin folder_path f) = .ok (label, conf) →
          (predict_folder pred folder_path listing)[i]? =
            some (.ok (osPathJoin folder_path f) label conf)) ∧
        (∀ e, pred (osPathJoin folder_path f) = .error e →
          (predict_folder pred folder_path listing)[i]? =
            some (.err (osPathJoin folder_path f) e))) ∧
    (predict_folder pred folder_path listing).countP (fun r => r.isOk) =
      ((pySorted listing).filter hasImageExt).countP
        (fun f => (pred (osPathJoin folder_path f)).isOk) ∧
    (predict_folder pred folder_path listing).countP (fun r => !r.isOk) =
      ((pySorted listing).filter hasImageExt).countP
        (fun f => !(pred (osPathJoin folder_path f)).isOk) ∧
    (((pySorted listing).filter hasImageExt).countP
        (fun f => !(pred (osPathJoin folder_path f)).isOk) = 1 →
      (listing.filter hasImageExt).length = 6 →
      (predict_folder pred folder_path listing).countP
          (fun r => r.isOk) = 5 ∧
      (predict_folder pred folder_path listing).countP
          (fun r => !r.isOk) = 1) := by
  have hperm : ((pySorted listing).filter hasImageExt).Perm
      (listing.filter hasImageExt) :=
    List.Perm.filter hasImageExt (List.perm_insertionSort _ listing)
  have hsorted : List.Pairwise (fun a b => pyStrLe a b = true)
      ((pySorted listing).filter hasImageExt) :=
    List.Pairwise.filter hasImageExt (List.sorted_insertionSort _ listing)
  have hcok : (predict_folder pred folder_path listing).countP
      (fun r => r.isOk) =
      ((pySorted listing).filter hasImageExt).countP
        (fun f => (pred (osPathJoin folder_path f)).isOk) := by
    rw [predict_folder_countP]
    refine List.countP_congr fun f _ => ?_
    cases hp : pred (osPathJoin folder_path f) with
    | ok v => cases v; simp [BatchRecord.isOk, Except.isOk, Except.toBool]
    | error e => simp [BatchRecord.isOk, Except.isOk, Except.toBool]
  have hcerr : (predict_folder pred folder_path listing).countP
      (fun r => !r.isOk) =
      ((pySorted listing).filter hasImageExt).countP
        (fun f => !(pred (osPathJoin folder_path f)).isOk) := by
    rw [predict_folder_countP]
    refine List.countP_congr fun f _ => ?_
    cases hp : pred (osPathJoin folder_path f) with
    | ok v => cases v; simp [BatchRecord.isOk, Except.isOk, Except.toBool]
    | error e => simp [BatchRecord.isOk, Except.isOk, Except.toBool]
  refine ⟨hperm, hsorted, List.length_map .., ?_, hcok, hcerr, ?_⟩
  · intro i f hif
    have hrec : (predict_folder pred folder_path listing)[i]? =
        some (match pred (osPathJoin folder_path f) with
          | .ok (label, conf) => .ok (osPathJoin folder_path f) label conf
          | .error e => .err (osPathJoin folder_path f) e) := by
      unfold predict_folder
      rw [List.getElem?_map, hif, Option.map_some']
    constructor
    · intro label conf hok
      rw [hrec, hok]
    · intro e herr
      rw [hrec, herr]
  · intro herr hlen6
    have hvlen : ((pySorted listing).filter hasImageExt).length = 6 :=
      hperm.length_eq.trans hlen6
    have hsplit := List.length_eq_countP_add_countP
      (p := fun f => (pred (osPathJoin folder_path f)).isOk)
      ((pySorted listing).filter hasImageExt)
    have hnot : ((pySorted listing).filter hasImageExt).countP
        (fun f => ¬ (pred (osPathJoin folder_path f)).isOk) =
        ((pySorted listing).filter hasImageExt).countP
          (fun f => !(pred (osPathJoin folder_path f)).isOk) :=
      List.countP_congr fun f _ => by simp
    rw [hvlen, hnot, herr] at hsplit
    exact ⟨hcok.trans (by omega), hcerr.trans herr⟩

/-- C4 witness: a folder listing with five decodable image files, one
corrupt image file and one non-image file yields five success records and
one error record. -/
theorem C4_predict_folder_witness :
    (predict_folder
      (fun p => if p = "dir/bad.png" then Except.error "decode failed"
        else Except.ok ("Uninfected", (9 : ℚ)/10))
      "dir"
      ["c1.png", "c2.png", "c3.png", "bad.png", "c4.jpg", "c5.jpeg",
       "notes.txt"]).countP (fun r => r.isOk) = 5 ∧
    (predict_folder
      (fun p => if p = "dir/bad.png" then Except.error "decode failed"
        else Except.ok ("Uninfected", (9 : ℚ)/10))
      "dir"
      ["c1.png", "c2.png", "c3.png", "bad.png", "c4.jpg", "c5.jpeg",
       "notes.txt"]).countP (fun r => !r.isOk) = 1 :=
  (C4_predict_folder
    (fun p => if p = "dir/bad.png" then Except.error "decode failed"
      else Except.ok ("Uninfected", (9 : ℚ)/10))
    "dir"
    ["c1.png", "c2.png", "c3.png", "bad.png", "c4.jpg", "c5.jpeg",
     "notes.txt"]).2.2.2.2.2.2 (by decide) (by decide)

/-- C8 (counterexample): "cell.Png" has an extension that is a
case-insensitive match of ".png", yet the endpoint rejects it with
HTTP 400 and the invalid-format message. -/
theorem C8_mixed_case_counterexample :
    lowerStr (splitextExt "cell.Png") = ".png".data ∧
    (api_predict true "cell.Png" false (.raise "") 0 0 none "t" []).1.status
      = 400 ∧
    (api_predict true "cell.Png" false (.raise "") 0 0 none "t" []).1.error
      = some "Invalid file format. Please upload PNG, JPG, or JPEG files." :=
  ⟨by decide, rfl, rfl⟩

/-- C8 (amended): a missing image field or empty filename is rejected with
HTTP 400; an extension outside the exact six-element set
`{.png, .jpg, .jpeg, .PNG, .JPG, .JPEG}` is rejected with HTTP 400 and the
message naming the allowed formats (mixed-case variants such as ".Png"
are therefore rejected); an extension in that set passes the format
check. -/
theorem C8_upload_validation (hasImage : Bool) (filename : String)
    (modelLoaded : Bool) (step : ModelStep) (u1 u2 : ℚ)
    (temp_path : String) (fs : List String) :
    (hasImage = false →
      (api_predict hasImage filename modelLoaded step u1 u2 none
        temp_path fs).1 = errorResponse 400 "No image uploaded") ∧
    (hasImage = true → filename = "" →
      (api_predict hasImage filename modelLoaded step u1 u2 none
        temp_path fs).1 = errorResponse 400 "Empty filename") ∧
    (hasImage = true → filename ≠ "" →
      splitextExt filename ∉ allowed_extensions →
      (api_predict hasImage filename modelLoaded step u1 u2 none
        temp_path fs).1 = errorResponse 400
          "Invalid file format. Please upload PNG, JPG, or JPEG files.") ∧
    (hasImage = true → filename ≠ "" →
      splitextExt filename ∈ allowed_extensions →
      (api_predict hasImage filename modelLoaded step u1 u2 none
        temp_path fs).1.status = 200) := by
  refine ⟨?_, ?_, ?_, ?_⟩
  · intro h
    subst h
    simp [api_predict]
  · intro h h'
    subst h
    simp [api_predict, h']
  · intro h h' hext
    subst h
    simp [api_predict, h', hext]
  · intro h h' hext
    subst h
    cases modelLoaded <;> cases step <;> simp [api_predict, h', hext]

/-- C8 witness: all four validation branches at concrete requests. -/
theorem C8_upload_validation_witness :
    (api_predict false "x.png" false (.raise "") 0 0 none "t" []).1 =
      errorResponse 400 "No image uploaded" ∧
    (api_predict true "" false (.raise "") 0 0 none "t" []).1 =
      errorResponse 400 "Empty filename" ∧
    (api_predict true "cell.txt" false (.raise "") 0 0 none "t" []).1 =
      errorResponse 400
        "Invalid file format. Please upload PNG, JPG, or JPEG files." ∧
    (api_predict true "cell.png" false (.raise "") 0 0 none "t" []).1.status
      = 200 :=
  ⟨(C8_upload_validation false "x.png" false (.raise "") 0 0 "t" []).1 rfl,
   (C8_upload_validation true "" false (.raise "") 0 0 "t" []).2.1 rfl rfl,
   (C8_upload_validation true "cell.txt" false (.raise "") 0 0 "t"
     []).2.2.1 rfl (by decide) (by decide),
   (C8_upload_validation true "cell.png" false (.raise "") 0 0 "t"
     []).2.2.2 rfl (by decide) (by decide)⟩

/-- C9: once a request passes validation (so its upload is saved to the
temporary path), the temporary file is absent from the upload directory
after the handler returns, on every exit path of both handlers — real
prediction, demo fallback, and the 500 path for an exception raised after
the save. -/
theorem C9_temp_file_cleanup (filename : String) (modelLoaded : Bool)
    (step : ModelStep) (u1 u2 : ℚ) (postRaise : Option String)
    (temp_path : String) (fs : List String)
    (hfn : filename ≠ "")
    (hext : splitextExt filename ∈ allowed_extensions) :
    temp_path ∉ (api_predict true filename modelLoaded step u1 u2 postRaise
      temp_path fs).2 ∧
    ∀ (bodyRaise : Option String),
      temp_path ∉ (demo_app_api_predict true filename bodyRaise u1 u2
        temp_path fs).2 := by
  constructor
  · simp [api_predict, hfn, hext, List.mem_filter]
  · intro bodyRaise
    simp [demo_app_api_predict, hfn, hext, List.mem_filter]

/-- C9 witness: cleanup on a success path and on the post-save exception
path, for both handlers. -/
theorem C9_temp_file_cleanup_witness :
    "t" ∉ (api_predict true "cell.png" false (.raise "") 0 0 none "t"
      ["other"]).2 ∧
    "t" ∉ (api_predict true "cell.png" true (.ok [1/2, 1/2]) 0 0
      (some "boom") "t" ["other"]).2 ∧
    "t" ∉ (demo_app_api_predict true "cell.png" (some "boom") 0 0 "t"
      ["other"]).2 :=
  ⟨(C9_temp_file_cleanup "cell.png" false (.raise "") 0 0 none "t"
      ["other"] (by decide) (by decide)).1,
   (C9_temp_file_cleanup "cell.png" true (.ok [1/2, 1/2]) 0 0
      (some "boom") "t" ["other"] (by decide) (by decide)).1,
   (C9_temp_file_cleanup "cell.png" false (.raise "") 0 0 none "t"
      ["other"] (by decide) (by decide)).2 (some "boom")⟩

/-- C10: when a model is loaded, a validated request whose preprocessing
or forward pass raises still gets an HTTP 200 success response whose
prediction comes from the demo generator, with no error field and
`demo_mode` set to true. -/
theorem C10_model_failure_demo_fallback (filename msg : String)
    (u1 u2 : ℚ) (temp_path : String) (fs : List String)
    (hfn : filename ≠ "")
    (hext : splitextExt filename ∈ allowed_extensions) :
    (api_predict true filename true (.raise msg) u1 u2 none temp_path
      fs).1.status = 200 ∧
    (api_predict true filename true (.raise msg) u1 u2 none temp_path
      fs).1.error = none ∧
    (api_predict true filename true (.raise msg) u1 u2 none temp_path
      fs).1.demo_mode = true ∧
    (api_predict true filename true (.raise msg) u1 u2 none temp_path
      fs).1.label = some (generate_demo_prediction u1 u2).label ∧
    (api_predict true filename true (.raise msg) u1 u2 none temp_path
      fs).1.confidence = some (generate_demo_prediction u1 u2).confidence ∧
    (api_predict true filename true (.raise msg) u1 u2 none temp_path
      fs).1.probUninfected =
        some (generate_demo_prediction u1 u2).uninfectedProb ∧
    (api_predict true filename true (.raise msg) u1 u2 none temp_path
      fs).1.probParasitized =
        some (generate_demo_prediction u1 u2).parasitizedProb := by
  simp [api_predict, hfn, hext]

/-- C10 witness: a concrete corrupt-but-correctly-named upload while a
model is loaded. -/
theorem C10_model_failure_demo_fallback_witness :
    (api_predict true "cell.png" true (.raise "cv2 decode error") 0 0 none
      "t" []).1.status = 200 ∧
    (api_predict true "cell.png" true (.raise "cv2 decode error") 0 0 none
      "t" []).1.error = none ∧
    (api_predict true "cell.png" true (.raise "cv2 decode error") 0 0 none
      "t" []).1.demo_mode = true ∧
    (api_predict true "cell.png" true (.raise "cv2 decode error") 0 0 none
      "t" []).1.label = some (generate_demo_prediction 0 0).label :=
  ⟨(C10_model_failure_demo_fallback "cell.png" "cv2 decode error" 0 0 "t"
      [] (by decide) (by decide)).1,
   (C10_model_failure_demo_fallback "cell.png" "cv2 decode error" 0 0 "t"
      [] (by decide) (by decide)).2.1,
   (C10_model_failure_demo_fallback "cell.png" "cv2 decode error" 0 0 "t"
      [] (by decide) (by decide)).2.2.1,
   (C10_model_failure_demo_fallback "cell.png" "cv2 decode error" 0 0 "t"
      [] (by decide) (by decide)).2.2.2.1⟩

end ParaDetect
